import Mathlib

/-!
Verification of the configuration module of the trading strategy evolution
engine (src/config.py), as a shallow embedding in Lean 4.

Modelling decisions:
* JSON scalar values are modelled by `JValue`; JSON numbers are exact
  rationals (the Python code only stores and compares the numbers it reads,
  it never computes with them, so the decimal literals of the source map
  injectively to rationals).
* Python dicts appearing as config sections are association lists
  `List (String × JValue)` (JSON object keys are unique after parsing).
* The process environment is a partial map `String → Option String`
  (`os.getenv`); Python string truthiness (`if value:`) is `envTruthy`.
* The filesystem at `config_path` is abstracted by `FileState`: the file is
  absent, present but not valid JSON, or present and parsed to a dict.
* Python exceptions are modelled by `Except`; an error carries the resolver
  state at the moment of the raise, since the Python code mutates `self`
  in place and a raise does not roll those mutations back.
* `EngineConfig` is a dataclass whose fields are assigned dynamically by
  name (`hasattr`/`setattr`); it is modelled as a total function from the
  enumerated field names to the value each field reads.  Python's `hasattr`
  is true not only for the 13 dataclass fields but also for class and
  dunder attributes, and `setattr` on those is not uniform, so the merge
  step models each behaviour class: a dataclass field name is assigned; a
  dict-valued `__dict__` rebinds the instance dict, so every field it does
  not list reverts to its class default (dataclass defaults are class
  attributes); `__class__` (a JSON value is never a class), a non-dict
  `__dict__`, and `__weakref__` raise, aborting the load; every other key
  — whether `hasattr` finds it and `setattr` silently shadows a class
  attribute (e.g. `__init__`), or `hasattr` misses it and the pair is
  skipped — raises nothing and leaves every dataclass field unchanged, so
  both are no-ops on the modelled state (the shadowing instance attribute
  is never read by the program).
* Values inside the `engine` section are `EngValue`: a JSON scalar or a
  one-level JSON object (the object case is what a `__dict__` assignment
  needs; deeper nesting is never read by the program).
* src/config.py is truncated inside `_load_from_env` (after
  `api_secret=api_secret,` and the start of the `paper_trading=` keyword);
  the missing tail (`paper_trading`, `rate_limit` defaults) and the missing
  `_validate_config` are modelled from the spec and marked as such.
-/

inductive JValue where
  | str (s : String)
  | num (q : ℚ)
  | bool (b : Bool)
deriving DecidableEq, Repr

/-- Exceptions that the body of `load_configuration` can raise.
`exception` stands for any other exception, e.g. the `TypeError` raised by
a dataclass constructor on an unexpected or missing keyword argument. -/
inductive PyError where
  | fileNotFoundError
  | jsonDecodeError
  | exception
deriving DecidableEq, Repr

/-- Firebase configuration dataclass (src/config.py lines 23-34).
The first five fields are required; the last four have defaults. -/
structure FirebaseConfig where
  project_id : JValue
  private_key_id : JValue
  private_key : JValue
  client_email : JValue
  client_id : JValue
  auth_uri : JValue := .str "https://accounts.google.com/o/oauth2/auth"
  token_uri : JValue := .str "https://oauth2.googleapis.com/token"
  auth_provider_x509_cert_url : JValue := .str "https://www.googleapis.com/oauth2/v1/certs"
  client_x509_cert_url : JValue := .str ""
deriving DecidableEq, Repr

/-- Exchange API configuration dataclass (src/config.py lines 36-43). -/
structure ExchangeConfig where
  name : JValue
  api_key : JValue
  api_secret : JValue
  paper_trading : JValue := .bool true
  rate_limit : JValue := .num 1000
deriving DecidableEq, Repr

/-- The field names of the `EngineConfig` dataclass (src/config.py lines 45-69). -/
inductive EngineField where
  | historical_data_days
  | candle_timeframe
  | max_strategies
  | generation_size
  | mutation_rate
  | max_position_size
  | stop_loss_pct
  | take_profit_pct
  | initial_capital
  | commission_rate
  | min_sharpe_ratio
  | min_win_rate
  | max_drawdown
deriving DecidableEq, Repr, Fintype

/-- A value inside the `engine` section: a JSON scalar, or a one-level
JSON object (needed to model an assignment to `__dict__`; deeper nesting
is never read by the program). -/
inductive EngValue where
  | scalar (v : JValue)
  | dict (entries : List (String × JValue))
deriving DecidableEq, Repr

/-- `EngineConfig` as a dynamic record: what each of the 13 dataclass
fields reads.  The fields are read and written by name at runtime
(`hasattr`/`setattr` in `_load_from_dict`), so the object is modelled as a
total function from field names to values. -/
def EngineConfig : Type := EngineField → EngValue

instance : DecidableEq EngineConfig :=
  inferInstanceAs (DecidableEq (EngineField → EngValue))

/-- The default-constructed `EngineConfig()` (src/config.py lines 45-69).
These defaults are also the dataclass *class attributes*, which is what a
field reads after the instance `__dict__` has been rebound without it. -/
def EngineConfig.init : EngineConfig := fun f =>
  match f with
  | .historical_data_days => .scalar (.num 365)
  | .candle_timeframe => .scalar (.str "1h")
  | .max_strategies => .scalar (.num 100)
  | .generation_size => .scalar (.num 20)
  | .mutation_rate => .scalar (.num (mkRat 15 100))
  | .max_position_size => .scalar (.num (mkRat 1 10))
  | .stop_loss_pct => .scalar (.num (mkRat 2 100))
  | .take_profit_pct => .scalar (.num (mkRat 5 100))
  | .initial_capital => .scalar (.num 10000)
  | .commission_rate => .scalar (.num (mkRat 1 1000))
  | .min_sharpe_ratio => .scalar (.num (mkRat 1 2))
  | .min_win_rate => .scalar (.num (mkRat 45 100))
  | .max_drawdown => .scalar (.num (mkRat 25 100))

/-- The dataclass field of `EngineConfig` named `key`, if any. -/
def EngineField.ofName (key : String) : Option EngineField :=
  if key = "historical_data_days" then some .historical_data_days
  else if key = "candle_timeframe" then some .candle_timeframe
  else if key = "max_strategies" then some .max_strategies
  else if key = "generation_size" then some .generation_size
  else if key = "mutation_rate" then some .mutation_rate
  else if key = "max_position_size" then some .max_position_size
  else if key = "stop_loss_pct" then some .stop_loss_pct
  else if key = "take_profit_pct" then some .take_profit_pct
  else if key = "initial_capital" then some .initial_capital
  else if key = "commission_rate" then some .commission_rate
  else if key = "min_sharpe_ratio" then some .min_sharpe_ratio
  else if key = "min_win_rate" then some .min_win_rate
  else if key = "max_drawdown" then some .max_drawdown
  else none

/-- The Python attribute name of a dataclass field (inverse of
`EngineField.ofName`). -/
def EngineField.pyName : EngineField → String
  | .historical_data_days => "historical_data_days"
  | .candle_timeframe => "candle_timeframe"
  | .max_strategies => "max_strategies"
  | .generation_size => "generation_size"
  | .mutation_rate => "mutation_rate"
  | .max_position_size => "max_position_size"
  | .stop_loss_pct => "stop_loss_pct"
  | .take_profit_pct => "take_profit_pct"
  | .initial_capital => "initial_capital"
  | .commission_rate => "commission_rate"
  | .min_sharpe_ratio => "min_sharpe_ratio"
  | .min_win_rate => "min_win_rate"
  | .max_drawdown => "max_drawdown"

/-- `setattr(self.engine_config, f, v)` for a dataclass field `f`. -/
def setattrEngine (e : EngineConfig) (f : EngineField) (v : EngValue) : EngineConfig :=
  fun g => if g = f then v else e g

/-- `setattr(self.engine_config, "__dict__", d)` with `d` a dict: the
instance `__dict__` is rebound to `d`, so a field listed in `d` reads that
value and every other field falls back to its dataclass class attribute,
i.e. its default. -/
def rebindDict (entries : List (String × JValue)) : EngineConfig :=
  fun f =>
    match entries.lookup f.pyName with
    | some v => .scalar v
    | none => EngineConfig.init f

/-- One iteration of the merge loop of `_load_from_dict` (lines 128-130):
`if hasattr(self.engine_config, key): setattr(self.engine_config, key, value)`.
Python's `hasattr` is true for the 13 dataclass fields and for class and
dunder attributes; `setattr` then behaves per attribute:
* a dataclass field name: plain assignment;
* `"__dict__"` with a dict value: the instance dict is rebound
  (`rebindDict`); with a non-dict value: `TypeError`;
* `"__class__"`: a JSON value is never a class, so `TypeError`;
* `"__weakref__"`: not writable, `AttributeError`;
* any other key: either `hasattr` misses it (skipped) or it shadows a
  class attribute such as `__init__` with an instance attribute that the
  program never reads — both leave every dataclass field unchanged and
  raise nothing, so both are `.ok e` on the modelled state. -/
def applyEngineItem (e : EngineConfig) (kv : String × EngValue) :
    Except PyError EngineConfig :=
  match EngineField.ofName kv.1 with
  | some f => .ok (setattrEngine e f kv.2)
  | none =>
    if kv.1 = "__dict__" then
      match kv.2 with
      | .dict entries => .ok (rebindDict entries)
      | .scalar _ => .error .exception
    else if kv.1 = "__class__" then .error .exception
    else if kv.1 = "__weakref__" then .error .exception
    else .ok e

/-- The whole merge loop over `engine_data.items()`: items are applied in
order; a raising item aborts the loop, keeping the fields mutated by the
items before it (the error carries that accumulated object). -/
def mergeEngine (e : EngineConfig) (l : List (String × EngValue)) :
    Except (PyError × EngineConfig) EngineConfig :=
  match l with
  | [] => .ok e
  | kv :: t =>
    match applyEngineItem e kv with
    | .ok e2 => mergeEngine e2 t
    | .error err => .error (err, e)

/-- Whether `setattr` raises on this item (it depends only on the key and
the value, never on the current object state). -/
def itemError (kv : String × EngValue) : Option PyError :=
  match EngineField.ofName kv.1 with
  | some _ => none
  | none =>
    if kv.1 = "__dict__" then
      match kv.2 with
      | .dict _ => none
      | .scalar _ => some .exception
    else if kv.1 = "__class__" then some .exception
    else if kv.1 = "__weakref__" then some .exception
    else none

/-- The value a (non-raising) item writes to field `f`, if any: a field
item writes its own field; a dict-valued `__dict__` item writes every
field (the listed value or the class default). -/
def itemWrite (kv : String × EngValue) (f : EngineField) : Option EngValue :=
  match EngineField.ofName kv.1 with
  | some g => if f = g then some kv.2 else none
  | none =>
    if kv.1 = "__dict__" then
      match kv.2 with
      | .dict entries => some (rebindDict entries f)
      | .scalar _ => none
    else none

/-- The first raise of the merge loop, if any. -/
def mergeError (l : List (String × EngValue)) : Option PyError :=
  match l with
  | [] => none
  | kv :: t =>
    match itemError kv with
    | some err => some err
    | none => mergeError t

/-- The net write of the merge loop to field `f` (up to the first raising
item, later items overriding earlier ones), if any. -/
def mergeWrites (l : List (String × EngValue)) (f : EngineField) : Option EngValue :=
  match l with
  | [] => none
  | kv :: t =>
    match itemError kv with
    | some _ => none
    | none =>
      match mergeWrites t f with
      | some v => some v
      | none => itemWrite kv f

/-- Parsed content of the config file: the three recognised top-level
sections (unknown top-level keys are ignored by `_load_from_dict`, so they
do not appear in the model). -/
structure ConfigData where
  firebase : Option (List (String × JValue))
  exchange : Option (List (String × JValue))
  engine : Option (List (String × EngValue))
deriving DecidableEq, Repr

/-- The filesystem at `self.config_path`: no file, a file that is not valid
JSON (`json.load` raises `JSONDecodeError`), or a file parsed to a dict. -/
inductive FileState where
  | absent
  | malformed
  | parsed (d : ConfigData)
deriving DecidableEq, Repr

/-- The mutable state of a `ConfigManager` (src/config.py lines 74-79);
`config_path` itself is abstracted into `FileState`. -/
structure ConfigState where
  firebase_config : Option FirebaseConfig := none
  exchange_config : Option ExchangeConfig := none
  engine_config : EngineConfig := EngineConfig.init
  secrets_loaded : Bool := false
deriving DecidableEq

/-- `ConfigManager.__init__`: fresh resolver state. -/
def initialState : ConfigState := {}

/-- The process environment, as read by `os.getenv`. -/
def Env : Type := String → Option String

/-- `value = os.getenv(env_var)` followed by the truthiness test
`if value:`: an unset variable and a variable set to the empty string are
both rejected. -/
def envTruthy (env : Env) (var : String) : Option String :=
  match env var with
  | some v => if v = "" then none else some v
  | none => none

/-- Required keyword arguments of `FirebaseConfig`. -/
def firebaseRequired : List String :=
  ["project_id", "private_key_id", "private_key", "client_email", "client_id"]

/-- All keyword arguments `FirebaseConfig` accepts. -/
def firebaseFieldNames : List String :=
  firebaseRequired ++
    ["auth_uri", "token_uri", "auth_provider_x509_cert_url", "client_x509_cert_url"]

/-- `FirebaseConfig(**d)`: raises `TypeError` (a generic exception here) on
an unexpected keyword or a missing required keyword; otherwise builds the
dataclass from the given keys, defaults filling the rest. -/
def FirebaseConfig.ofDict (d : List (String × JValue)) : Except PyError FirebaseConfig :=
  if d.all (fun kv => firebaseFieldNames.contains kv.1) &&
     firebaseRequired.all (fun k => (d.lookup k).isSome) then
    .ok
      { project_id := (d.lookup "project_id").getD (.str "")
        private_key_id := (d.lookup "private_key_id").getD (.str "")
        private_key := (d.lookup "private_key").getD (.str "")
        client_email := (d.lookup "client_email").getD (.str "")
        client_id := (d.lookup "client_id").getD (.str "")
        auth_uri := (d.lookup "auth_uri").getD (.str "https://accounts.google.com/o/oauth2/auth")
        token_uri := (d.lookup "token_uri").getD (.str "https://oauth2.googleapis.com/token")
        auth_provider_x509_cert_url :=
          (d.lookup "auth_provider_x509_cert_url").getD
            (.str "https://www.googleapis.com/oauth2/v1/certs")
        client_x509_cert_url := (d.lookup "client_x509_cert_url").getD (.str "") }
  else .error .exception

/-- Required keyword arguments of `ExchangeConfig`. -/
def exchangeRequired : List String := ["name", "api_key", "api_secret"]

/-- All keyword arguments `ExchangeConfig` accepts. -/
def exchangeFieldNames : List String :=
  exchangeRequired ++ ["paper_trading", "rate_limit"]

/-- `ExchangeConfig(**d)`: same keyword-argument discipline as
`FirebaseConfig.ofDict`. -/
def ExchangeConfig.ofDict (d : List (String × JValue)) : Except PyError ExchangeConfig :=
  if d.all (fun kv => exchangeFieldNames.contains kv.1) &&
     exchangeRequired.all (fun k => (d.lookup k).isSome) then
    .ok
      { name := (d.lookup "name").getD (.str "")
        api_key := (d.lookup "api_key").getD (.str "")
        api_secret := (d.lookup "api_secret").getD (.str "")
        paper_trading := (d.lookup "paper_trading").getD (.bool true)
        rate_limit := (d.lookup "rate_limit").getD (.num 1000) }
  else .error .exception

/-- `_load_from_dict` (src/config.py lines 113-130): apply the `firebase`,
`exchange` and `engine` sections in that order, mutating `self` as it goes;
a constructor `TypeError` aborts at that point, leaving the mutations made
so far in place (the error carries the state at the raise). -/
def _load_from_dict (cfg : ConfigData) (s : ConfigState) :
    Except (PyError × ConfigState) ConfigState :=
  match (match cfg.firebase with
    | none => Except.ok s
    | some fd =>
      match FirebaseConfig.ofDict fd with
      | .ok fc => Except.ok { s with firebase_config := some fc }
      | .error e => Except.error (e, s)) with
  | .error es => .error es
  | .ok s1 =>
    match (match cfg.exchange with
      | none => Except.ok s1
      | some ed =>
        match ExchangeConfig.ofDict ed with
        | .ok ec => Except.ok { s1 with exchange_config := some ec }
        | .error e => Except.error (e, s1)) with
    | .error es => .error es
    | .ok s2 =>
      match cfg.engine with
      | none => .ok s2
      | some en =>
        match mergeEngine s2.engine_config en with
        | .ok e2 => .ok { s2 with engine_config := e2 }
        | .error es => .error (es.1, { s2 with engine_config := es.2 })

/-- The `firebase_vars` dict of `_load_from_env` (lines 135-141):
dataclass attribute name paired with environment variable name. -/
def firebase_vars : List (String × String) :=
  [("project_id", "FIREBASE_PROJECT_ID"),
   ("private_key_id", "FIREBASE_PRIVATE_KEY_ID"),
   ("private_key", "FIREBASE_PRIVATE_KEY"),
   ("client_email", "FIREBASE_CLIENT_EMAIL"),
   ("client_id", "FIREBASE_CLIENT_ID")]

/-- The `firebase_data` dict built by the loop at lines 143-147: one entry
per environment variable that is set and non-empty. -/
def firebaseEnvData (env : Env) : List (String × String) :=
  firebase_vars.filterMap (fun av => (envTruthy env av.2).map (fun v => (av.1, v)))

/-- `FirebaseConfig(**firebase_data)` at line 150.  Under the guard
`len(firebase_data) == len(firebase_vars)` the dict holds exactly the five
required keys, so construction succeeds with defaults for the rest. -/
def firebaseFromStrDict (d : List (String × String)) : FirebaseConfig :=
  { project_id := .str ((d.lookup "project_id").getD "")
    private_key_id := .str ((d.lookup "private_key_id").getD "")
    private_key := .str ((d.lookup "private_key").getD "")
    client_email := .str ((d.lookup "client_email").getD "")
    client_id := .str ((d.lookup "client_id").getD "") }

/-- The Firebase block of `_load_from_env` (lines 143-151), with
`firebase_data` written as `firebaseEnvData env`:
`if firebase_data and len(firebase_data) == len(firebase_vars):` replace
the Firebase group wholesale with the environment-derived one. -/
def loadFirebaseFromEnv (env : Env) (s : ConfigState) : ConfigState :=
  if firebaseEnvData env ≠ [] ∧ (firebaseEnvData env).length = firebase_vars.length then
    { s with firebase_config := some (firebaseFromStrDict (firebaseEnvData env)) }
  else s

/-- Python's `str.lower()` on the character list (structural form of
`String.toLower`). -/
def pyLower (s : String) : String := ⟨s.data.map Char.toLower⟩

/-- Modelled from the spec: the source is truncated at
`paper_trading=os.getenv('P …`; the spec says the paper-trading flag is a
boolean-like environment string with default `true` (the safety default),
read as `os.getenv('PAPER_TRADING', 'true').lower() == 'true'`. -/
def paperFlag (env : Env) : Bool :=
  pyLower ((env "PAPER_TRADING").getD "true") = "true"

/-- Modelled from the spec: the rate limit is read from the environment
with its own default 1000 (the tail of `_load_from_env` is missing from
the truncated source). -/
def rateFromEnv (env : Env) : ℚ :=
  (((env "RATE_LIMIT").bind String.toNat?).getD 1000 : ℕ)

/-- The `ExchangeConfig(...)` constructor call of lines 159-163:
`exchange_name` is `os.getenv('EXCHANGE_NAME', 'binance')` (the default
applies only when the variable is unset). -/
def exchangeFromEnv (env : Env) (k sec : String) : ExchangeConfig :=
  { name := .str ((env "EXCHANGE_NAME").getD "binance")
    api_key := .str k
    api_secret := .str sec
    paper_trading := .bool (paperFlag env)
    rate_limit := .num (rateFromEnv env) }

/-- The Exchange block of `_load_from_env` (lines 153-163):
`if api_key and api_secret:` replace the Exchange group wholesale. -/
def loadExchangeFromEnv (env : Env) (s : ConfigState) : ConfigState :=
  match envTruthy env "EXCHANGE_API_KEY", envTruthy env "EXCHANGE_API_SECRET" with
  | some k, some sec => { s with exchange_config := some (exchangeFromEnv env k sec) }
  | _, _ => s

/-- `_load_from_env` (src/config.py lines 132-163 and the truncated tail):
the Firebase block then the Exchange block.  Neither block can raise. -/
def _load_from_env (env : Env) (s : ConfigState) : ConfigState :=
  loadExchangeFromEnv env (loadFirebaseFromEnv env s)

/-- Nonnegative fraction bound check used by validation. -/
def isFrac01 : EngValue → Bool
  | .scalar (.num q) => decide (0 ≤ q ∧ q ≤ 1)
  | _ => false

/-- Positivity check used by validation. -/
def isPos : EngValue → Bool
  | .scalar (.num q) => decide (0 < q)
  | _ => false

/-- Non-empty-string check used by validation. -/
def strNonEmpty : JValue → Bool
  | .str s => !s.isEmpty
  | _ => false

/-- Modelled from the spec: `_validate_config` is beyond the truncation
point of src/config.py.  Per the spec's validation policy: numeric
`EngineConfig` fields within sane bounds (rates and fractions in [0,1],
counts and capital positive); if an `ExchangeConfig` is present, both
credential fields non-empty; if a `FirebaseConfig` is present, all five
required fields non-empty. -/
def _validate_config (s : ConfigState) : Bool :=
  let e := s.engine_config
  isPos (e .historical_data_days) && isPos (e .max_strategies) &&
  isPos (e .generation_size) && isPos (e .initial_capital) &&
  isFrac01 (e .mutation_rate) && isFrac01 (e .max_position_size) &&
  isFrac01 (e .stop_loss_pct) && isFrac01 (e .take_profit_pct) &&
  isFrac01 (e .commission_rate) && isFrac01 (e .min_win_rate) &&
  isFrac01 (e .max_drawdown) &&
  (match s.exchange_config with
   | none => true
   | some ec => strNonEmpty ec.api_key && strNonEmpty ec.api_secret) &&
  (match s.firebase_config with
   | none => true
   | some fc =>
     strNonEmpty fc.project_id && strNonEmpty fc.private_key_id &&
     strNonEmpty fc.private_key && strNonEmpty fc.client_email &&
     strNonEmpty fc.client_id)

/-- The file phase of `load_configuration` (lines 84-89): nothing happens
when no file exists (`os.path.exists` is false); a present file is parsed
(`json.load` raises on invalid JSON) and applied with `_load_from_dict`. -/
def fileStep (fs : FileState) (s : ConfigState) :
    Except (PyError × ConfigState) ConfigState :=
  match fs with
  | .absent => .ok s
  | .malformed => .error (.jsonDecodeError, s)
  | .parsed d => _load_from_dict d s

/-- The rest of the `try` body after the file phase (lines 91-101):
environment overlay, validation, and on success set `_secrets_loaded`. -/
def afterFile (env : Env) (s : ConfigState) : Bool × ConfigState :=
  if _validate_config (_load_from_env env s) then
    (true, { _load_from_env env s with secrets_loaded := true })
  else (false, _load_from_env env s)

/-- The whole `try` body of `load_configuration` (lines 83-101), before the
`except` handlers: either the returned boolean with the final state, or a
raised exception with the state at the raise. -/
def loadBody (fs : FileState) (env : Env) (s : ConfigState) :
    Except (PyError × ConfigState) (Bool × ConfigState) :=
  match fileStep fs s with
  | .error es => .error es
  | .ok s1 => .ok (afterFile env s1)

/-- `load_configuration` (src/config.py lines 81-111): run the body; every
`except` clause (`FileNotFoundError`, `JSONDecodeError`, `Exception`)
converts the raise into a `False` return, keeping the mutations made so
far. -/
def load_configuration (fs : FileState) (env : Env) (s : ConfigState) :
    Bool × ConfigState :=
  match loadBody fs env s with
  | .ok r => r
  | .error (_, s1) => (false, s1)

/-! Canonical descriptions of the effect of each phase on each group,
used by the lemmas below. -/

/-- What the Firebase block of the environment overlay does to the Firebase
group: wholesale replacement when all five variables are set and non-empty,
otherwise keep the previous value. -/
def fbEnvOr (env : Env) (prev : Option FirebaseConfig) : Option FirebaseConfig :=
  if firebaseEnvData env ≠ [] ∧ (firebaseEnvData env).length = firebase_vars.length then
    some (firebaseFromStrDict (firebaseEnvData env))
  else prev

/-- What the Exchange block of the environment overlay does to the Exchange
group. -/
def exEnvOr (env : Env) (prev : Option ExchangeConfig) : Option ExchangeConfig :=
  match envTruthy env "EXCHANGE_API_KEY", envTruthy env "EXCHANGE_API_SECRET" with
  | some k, some sec => some (exchangeFromEnv env k sec)
  | _, _ => prev

/-- What a successful `_load_from_dict` does to the Firebase group. -/
def dictFbOr (cfg : ConfigData) (prev : Option FirebaseConfig) : Option FirebaseConfig :=
  match cfg.firebase with
  | none => prev
  | some fd =>
    match FirebaseConfig.ofDict fd with
    | .ok c => some c
    | .error _ => prev

/-- What a successful `_load_from_dict` does to the Exchange group. -/
def dictExOr (cfg : ConfigData) (prev : Option ExchangeConfig) : Option ExchangeConfig :=
  match cfg.exchange with
  | none => prev
  | some ed =>
    match ExchangeConfig.ofDict ed with
    | .ok c => some c
    | .error _ => prev

/-- What `_load_from_dict` does to the Engine group whenever the merge
loop is reached: apply the loop's net writes (truncated at its first
raising item, if any) over the previous values. -/
def dictEnOr (cfg : ConfigData) (e : EngineConfig) : EngineConfig :=
  match cfg.engine with
  | none => e
  | some l => fun f => (mergeWrites l f).getD (e f)

/-- Whether `_load_from_dict` completes without raising. -/
def exOk {ε α : Type} : Except ε α → Bool
  | .ok _ => true
  | .error _ => false

/-- Decides whether `_load_from_dict` raises: both constructor calls, when
their sections are present, must succeed. -/
def dictOk (cfg : ConfigData) : Bool :=
  (match cfg.firebase with
   | none => true
   | some fd => exOk (FirebaseConfig.ofDict fd)) &&
  (match cfg.exchange with
   | none => true
   | some ed => exOk (ExchangeConfig.ofDict ed)) &&
  (match cfg.engine with
   | none => true
   | some l => (mergeError l).isNone)

/-- The last value the merge loop of `_load_from_dict` writes to engine
field `f`, if any. -/
def lastWrite (l : List (String × JValue)) (f : EngineField) : Option JValue :=
  match l with
  | [] => none
  | kv :: t =>
    match lastWrite t f with
    | some v => some v
    | none => if EngineField.ofName kv.1 = some f then some kv.2 else none

/-! Concrete inputs used by witnesses and counterexamples. -/

/-- An empty process environment. -/
def emptyEnv : Env := fun _ => none

/-- An environment setting all five Firebase variables (and nothing else). -/
def envAllFirebase : Env := fun v =>
  if v = "FIREBASE_PROJECT_ID" then some "env-pid"
  else if v = "FIREBASE_PRIVATE_KEY_ID" then some "env-pkid"
  else if v = "FIREBASE_PRIVATE_KEY" then some "env-pk"
  else if v = "FIREBASE_CLIENT_EMAIL" then some "env-email"
  else if v = "FIREBASE_CLIENT_ID" then some "env-cid"
  else none

/-- An environment setting exactly four of the five Firebase variables. -/
def envFourFirebase : Env := fun v =>
  if v = "FIREBASE_PROJECT_ID" then some "env-pid"
  else if v = "FIREBASE_PRIVATE_KEY_ID" then some "env-pkid"
  else if v = "FIREBASE_PRIVATE_KEY" then some "env-pk"
  else if v = "FIREBASE_CLIENT_EMAIL" then some "env-email"
  else none

/-- The environment of the spec's Exchange scenario:
`EXCHANGE_API_KEY=abc`, `EXCHANGE_API_SECRET=xyz`, nothing else set. -/
def envC8 : Env := fun v =>
  if v = "EXCHANGE_API_KEY" then some "abc"
  else if v = "EXCHANGE_API_SECRET" then some "xyz"
  else none

/-- A file-derived `firebase` section with all five required keys. -/
def sampleFirebaseDict : List (String × JValue) :=
  [("project_id", .str "file-pid"),
   ("private_key_id", .str "file-pkid"),
   ("private_key", .str "file-pk"),
   ("client_email", .str "file-email"),
   ("client_id", .str "file-cid")]

/-- The `FirebaseConfig` built from `sampleFirebaseDict`. -/
def sampleFirebase : FirebaseConfig :=
  { project_id := .str "file-pid"
    private_key_id := .str "file-pkid"
    private_key := .str "file-pk"
    client_email := .str "file-email"
    client_id := .str "file-cid" }

/-- An `exchange` section with an unexpected field name: its dataclass
constructor raises `TypeError`. -/
def badExchangeDict : List (String × JValue) :=
  [("name", .str "binance"),
   ("api_key", .str "a"),
   ("api_secret", .str "b"),
   ("bogus_field", .str "x")]

/-- A resolver state already holding a file-derived Firebase group. -/
def stateWithFileFirebase : ConfigState :=
  { initialState with firebase_config := some sampleFirebase }

/-- A resolver state whose engine config was mutated by an earlier load
(`mutation_rate` set to 0.3). -/
def mutatedEngineState : ConfigState :=
  { initialState with
      engine_config := setattrEngine EngineConfig.init .mutation_rate (.scalar (.num (mkRat 3 10))) }

/-- An empty parsed config file (`{}`). -/
def emptyConfigData : ConfigData := ⟨none, none, none⟩


/-! Helper lemmas. -/

lemma loadFirebaseFromEnv_firebase (env : Env) (s : ConfigState) :
    (loadFirebaseFromEnv env s).firebase_config = fbEnvOr env s.firebase_config := by
  unfold loadFirebaseFromEnv fbEnvOr
  split <;> rfl

lemma loadFirebaseFromEnv_exchange (env : Env) (s : ConfigState) :
    (loadFirebaseFromEnv env s).exchange_config = s.exchange_config := by
  unfold loadFirebaseFromEnv
  split <;> rfl

lemma loadFirebaseFromEnv_engine (env : Env) (s : ConfigState) :
    (loadFirebaseFromEnv env s).engine_config = s.engine_config := by
  unfold loadFirebaseFromEnv
  split <;> rfl

lemma loadExchangeFromEnv_firebase (env : Env) (s : ConfigState) :
    (loadExchangeFromEnv env s).firebase_config = s.firebase_config := by
  unfold loadExchangeFromEnv
  split <;> rfl

lemma loadExchangeFromEnv_exchange (env : Env) (s : ConfigState) :
    (loadExchangeFromEnv env s).exchange_config = exEnvOr env s.exchange_config := by
  unfold loadExchangeFromEnv exEnvOr
  split <;> rfl

lemma loadExchangeFromEnv_engine (env : Env) (s : ConfigState) :
    (loadExchangeFromEnv env s).engine_config = s.engine_config := by
  unfold loadExchangeFromEnv
  split <;> rfl

lemma load_from_env_firebase (env : Env) (s : ConfigState) :
    (_load_from_env env s).firebase_config = fbEnvOr env s.firebase_config := by
  unfold _load_from_env
  rw [loadExchangeFromEnv_firebase, loadFirebaseFromEnv_firebase]

lemma load_from_env_exchange (env : Env) (s : ConfigState) :
    (_load_from_env env s).exchange_config = exEnvOr env s.exchange_config := by
  unfold _load_from_env
  rw [loadExchangeFromEnv_exchange, loadFirebaseFromEnv_exchange]

lemma load_from_env_engine (env : Env) (s : ConfigState) :
    (_load_from_env env s).engine_config = s.engine_config := by
  unfold _load_from_env
  rw [loadExchangeFromEnv_engine, loadFirebaseFromEnv_engine]

lemma fbEnvOr_idem (env : Env) (p : Option FirebaseConfig) :
    fbEnvOr env (fbEnvOr env p) = fbEnvOr env p := by
  unfold fbEnvOr
  split <;> simp_all

lemma exEnvOr_idem (env : Env) (p : Option ExchangeConfig) :
    exEnvOr env (exEnvOr env p) = exEnvOr env p := by
  unfold exEnvOr
  split <;> simp_all

lemma afterFile_firebase (env : Env) (s : ConfigState) :
    (afterFile env s).2.firebase_config = fbEnvOr env s.firebase_config := by
  unfold afterFile
  split <;> simp [load_from_env_firebase]

lemma afterFile_exchange (env : Env) (s : ConfigState) :
    (afterFile env s).2.exchange_config = exEnvOr env s.exchange_config := by
  unfold afterFile
  split <;> simp [load_from_env_exchange]

lemma afterFile_engine (env : Env) (s : ConfigState) :
    (afterFile env s).2.engine_config = s.engine_config := by
  unfold afterFile
  split <;> simp [load_from_env_engine]

lemma writeGetD_idem (w : Option EngValue) (x : EngValue) :
    w.getD (w.getD x) = w.getD x := by
  cases w <;> rfl

lemma mergeState_fix (l : List (String × EngValue)) (x : EngineConfig) :
    (fun f => (mergeWrites l f).getD ((mergeWrites l f).getD (x f))) =
      (fun f => (mergeWrites l f).getD (x f)) := by
  funext f
  exact writeGetD_idem (mergeWrites l f) (x f)

lemma applyEngineItem_char (e : EngineConfig) (kv : String × EngValue) :
    applyEngineItem e kv =
      match itemError kv with
      | some err => Except.error err
      | none => Except.ok (fun f => (itemWrite kv f).getD (e f)) := by
  unfold applyEngineItem itemError itemWrite
  cases hn : EngineField.ofName kv.1 with
  | some g =>
    simp only []
    congr 1
    funext x
    by_cases hx : x = g <;> simp [setattrEngine, hx]
  | none =>
    by_cases hd : kv.1 = "__dict__"
    · cases hv : kv.2 with
      | dict entries => simp [hd, hv]
      | scalar v => simp [hd, hv]
    · by_cases hc : kv.1 = "__class__"
      · simp [hd, hc]
      · by_cases hw : kv.1 = "__weakref__"
        · simp [hd, hc, hw]
        · simp only [hd, hc, hw, if_neg, if_false]
          congr 1

lemma mergeEngine_char (l : List (String × EngValue)) (e : EngineConfig) :
    mergeEngine e l =
      match mergeError l with
      | some err => .error (err, fun f => (mergeWrites l f).getD (e f))
      | none => .ok (fun f => (mergeWrites l f).getD (e f)) := by
  induction l generalizing e with
  | nil => rfl
  | cons kv t ih =>
    have hstep : mergeEngine e (kv :: t) =
        (match applyEngineItem e kv with
         | .ok e2 => mergeEngine e2 t
         | .error err => .error (err, e)) := rfl
    rw [hstep, applyEngineItem_char]
    cases hie : itemError kv with
    | some err =>
      simp only [mergeError, mergeWrites, hie]
      congr 1
    | none =>
      simp only []
      rw [ih]
      have hW : ∀ x : EngineConfig,
          (fun f => (mergeWrites t f).getD ((fun g => (itemWrite kv g).getD (x g)) f)) =
            (fun f => (mergeWrites (kv :: t) f).getD (x f)) := by
        intro x
        funext f
        show (mergeWrites t f).getD ((itemWrite kv f).getD (x f)) = _
        simp only [mergeWrites, hie]
        cases mergeWrites t f <;> rfl
      have hE : mergeError (kv :: t) = mergeError t := by
        simp [mergeError, hie]
      rw [hE]
      cases hme : mergeError t with
      | some err => rw [hW e]
      | none => rw [hW e]

lemma itemWrite_none_of (kv : String × EngValue) (f : EngineField)
    (h1 : EngineField.ofName kv.1 ≠ some f) (h2 : kv.1 ≠ "__dict__") :
    itemWrite kv f = none := by
  unfold itemWrite
  cases hn : EngineField.ofName kv.1 with
  | some g =>
    show (if f = g then some kv.2 else none) = none
    rw [if_neg]
    intro hfg
    exact h1 (by rw [hn, hfg])
  | none => simp [h2]

lemma mergeWrites_none (l : List (String × EngValue)) (f : EngineField)
    (h : ∀ kv ∈ l, itemWrite kv f = none) : mergeWrites l f = none := by
  induction l with
  | nil => rfl
  | cons kv t ih =>
    simp only [mergeWrites]
    cases hie : itemError kv with
    | some err => rfl
    | none =>
      rw [ih (fun kv2 hkv2 => h kv2 (List.mem_cons_of_mem _ hkv2)),
          h kv (List.mem_cons_self kv t)]

lemma mergeEngine_ok_of (l : List (String × EngValue)) (x : EngineConfig)
    (hme : mergeError l = none) :
    mergeEngine x l = .ok (fun f => (mergeWrites l f).getD (x f)) := by
  rw [mergeEngine_char, hme]

lemma mergeEngine_err_of (l : List (String × EngValue)) (x : EngineConfig) (err : PyError)
    (hme : mergeError l = some err) :
    mergeEngine x l = .error (err, fun f => (mergeWrites l f).getD (x f)) := by
  rw [mergeEngine_char, hme]

lemma mergeEngine_err_fix (l : List (String × EngValue)) (err : PyError) (x : EngineConfig)
    (hme : mergeError l = some err) :
    mergeEngine (fun f => (mergeWrites l f).getD (x f)) l =
      .error (err, fun f => (mergeWrites l f).getD (x f)) := by
  rw [mergeEngine_err_of l _ err hme]
  exact congrArg Except.error (congrArg (Prod.mk err) (mergeState_fix l x))

lemma load_from_dict_ok (cfg : ConfigData) (s s1 : ConfigState)
    (h : _load_from_dict cfg s = .ok s1) :
    dictOk cfg = true ∧
    s1 = { s with
            firebase_config := dictFbOr cfg s.firebase_config,
            exchange_config := dictExOr cfg s.exchange_config,
            engine_config := dictEnOr cfg s.engine_config } := by
  obtain ⟨fb, ex, en⟩ := cfg
  cases fb with
  | none =>
    cases ex with
    | none =>
      cases en with
      | none => simp_all [_load_from_dict, dictOk, dictFbOr, dictExOr, dictEnOr, exOk]
      | some l =>
        cases hme : mergeError l with
        | none =>
          simp_all [_load_from_dict, dictOk, dictFbOr, dictExOr, dictEnOr, exOk,
            mergeEngine_char, hme]
        | some err => simp_all [_load_from_dict, mergeEngine_char, hme]
    | some ed =>
      cases hce : ExchangeConfig.ofDict ed with
      | ok ec =>
        cases en with
        | none =>
          simp_all [_load_from_dict, dictOk, dictFbOr, dictExOr, dictEnOr, exOk, hce]
        | some l =>
          cases hme : mergeError l with
          | none =>
            simp_all [_load_from_dict, dictOk, dictFbOr, dictExOr, dictEnOr, exOk, hce,
              mergeEngine_char, hme]
          | some err => simp_all [_load_from_dict, hce, mergeEngine_char, hme]
      | error e => simp_all [_load_from_dict, hce]
  | some fd =>
    cases hcf : FirebaseConfig.ofDict fd with
    | error e => simp_all [_load_from_dict, hcf]
    | ok fc =>
      cases ex with
      | none =>
        cases en with
        | none =>
          simp_all [_load_from_dict, dictOk, dictFbOr, dictExOr, dictEnOr, exOk, hcf]
        | some l =>
          cases hme : mergeError l with
          | none =>
            simp_all [_load_from_dict, dictOk, dictFbOr, dictExOr, dictEnOr, exOk, hcf,
              mergeEngine_char, hme]
          | some err => simp_all [_load_from_dict, hcf, mergeEngine_char, hme]
      | some ed =>
        cases hce : ExchangeConfig.ofDict ed with
        | ok ec =>
          cases en with
          | none =>
            simp_all [_load_from_dict, dictOk, dictFbOr, dictExOr, dictEnOr, exOk, hcf, hce]
          | some l =>
            cases hme : mergeError l with
            | none =>
              simp_all [_load_from_dict, dictOk, dictFbOr, dictExOr, dictEnOr, exOk,
                hcf, hce, mergeEngine_char, hme]
            | some err => simp_all [_load_from_dict, hcf, hce, mergeEngine_char, hme]
        | error e => simp_all [_load_from_dict, hcf, hce]

lemma load_from_dict_of_dictOk (cfg : ConfigData) (s : ConfigState)
    (h : dictOk cfg = true) :
    _load_from_dict cfg s = .ok
      { s with
        firebase_config := dictFbOr cfg s.firebase_config,
        exchange_config := dictExOr cfg s.exchange_config,
        engine_config := dictEnOr cfg s.engine_config } := by
  obtain ⟨fb, ex, en⟩ := cfg
  cases fb with
  | none =>
    cases ex with
    | none =>
      cases en with
      | none => simp_all [_load_from_dict, dictOk, dictFbOr, dictExOr, dictEnOr]
      | some l =>
        cases hme : mergeError l with
        | none =>
          simp_all [_load_from_dict, dictOk, dictFbOr, dictExOr, dictEnOr,
            mergeEngine_char, hme]
        | some err => simp_all [dictOk, hme]
    | some ed =>
      cases hce : ExchangeConfig.ofDict ed with
      | ok ec =>
        cases en with
        | none =>
          simp_all [_load_from_dict, dictOk, dictFbOr, dictExOr, dictEnOr, exOk, hce]
        | some l =>
          cases hme : mergeError l with
          | none =>
            simp_all [_load_from_dict, dictOk, dictFbOr, dictExOr, dictEnOr, exOk, hce,
              mergeEngine_char, hme]
          | some err => simp_all [dictOk, hme]
      | error e2 => simp_all [dictOk, exOk, hce]
  | some fd =>
    cases hcf : FirebaseConfig.ofDict fd with
    | error e2 => simp_all [dictOk, exOk, hcf]
    | ok fc =>
      cases ex with
      | none =>
        cases en with
        | none =>
          simp_all [_load_from_dict, dictOk, dictFbOr, dictExOr, dictEnOr, exOk, hcf]
        | some l =>
          cases hme : mergeError l with
          | none =>
            simp_all [_load_from_dict, dictOk, dictFbOr, dictExOr, dictEnOr, exOk, hcf,
              mergeEngine_char, hme]
          | some err => simp_all [dictOk, hme]
      | some ed =>
        cases hce : ExchangeConfig.ofDict ed with
        | ok ec =>
          cases en with
          | none =>
            simp_all [_load_from_dict, dictOk, dictFbOr, dictExOr, dictEnOr, exOk, hcf, hce]
          | some l =>
            cases hme : mergeError l with
            | none =>
              simp_all [_load_from_dict, dictOk, dictFbOr, dictExOr, dictEnOr, exOk,
                hcf, hce, mergeEngine_char, hme]
            | some err => simp_all [dictOk, hme]
        | error e2 => simp_all [dictOk, exOk, hcf, hce]

lemma load_from_dict_err_stable (cfg : ConfigData) (s s1 : ConfigState) (e : PyError)
    (h : _load_from_dict cfg s = .error (e, s1)) :
    _load_from_dict cfg s1 = .error (e, s1) := by
  obtain ⟨fb, ex, en⟩ := cfg
  cases fb with
  | none =>
    cases ex with
    | none =>
      cases en with
      | none => simp_all [_load_from_dict]
      | some l =>
        cases hme : mergeError l with
        | none => simp_all [_load_from_dict, mergeEngine_char, hme]
        | some err =>
          simp only [_load_from_dict, mergeEngine_char, hme,
            Except.error.injEq, Prod.mk.injEq] at h
          obtain ⟨he, hs1⟩ := h
          subst he
          subst hs1
          simp only [_load_from_dict]
          rw [mergeEngine_char, hme]
          dsimp only
          rw [mergeState_fix l s.engine_config]
    | some ed =>
      cases hce : ExchangeConfig.ofDict ed with
      | ok ec =>
        cases en with
        | none => simp_all [_load_from_dict, hce]
        | some l =>
          cases hme : mergeError l with
          | none => simp_all [_load_from_dict, hce, mergeEngine_char, hme]
          | some err =>
            simp only [_load_from_dict, hce, mergeEngine_char, hme,
              Except.error.injEq, Prod.mk.injEq] at h
            obtain ⟨he, hs1⟩ := h
            subst he
            subst hs1
            simp only [_load_from_dict, hce]
            rw [mergeEngine_char, hme]
            dsimp only
            rw [mergeState_fix l s.engine_config]
      | error e2 => simp_all [_load_from_dict, hce]
  | some fd =>
    cases hcf : FirebaseConfig.ofDict fd with
    | error e2 => simp_all [_load_from_dict, hcf]
    | ok fc =>
      cases ex with
      | none =>
        cases en with
        | none => simp_all [_load_from_dict, hcf]
        | some l =>
          cases hme : mergeError l with
          | none => simp_all [_load_from_dict, hcf, mergeEngine_char, hme]
          | some err =>
            simp only [_load_from_dict, hcf, mergeEngine_char, hme,
              Except.error.injEq, Prod.mk.injEq] at h
            obtain ⟨he, hs1⟩ := h
            subst he
            subst hs1
            simp only [_load_from_dict, hcf]
            rw [mergeEngine_char, hme]
            dsimp only
            rw [mergeState_fix l s.engine_config]
      | some ed =>
        cases hce : ExchangeConfig.ofDict ed with
        | ok ec =>
          cases en with
          | none => simp_all [_load_from_dict, hcf, hce]
          | some l =>
            cases hme : mergeError l with
            | none => simp_all [_load_from_dict, hcf, hce, mergeEngine_char, hme]
            | some err =>
              simp only [_load_from_dict, hcf, hce, mergeEngine_char, hme,
                Except.error.injEq, Prod.mk.injEq] at h
              obtain ⟨he, hs1⟩ := h
              subst he
              subst hs1
              simp only [_load_from_dict, hcf, hce]
              rw [mergeEngine_char, hme]
              dsimp only
              rw [mergeState_fix l s.engine_config]
        | error e2 =>
          simp only [_load_from_dict, hcf, hce, Except.error.injEq, Prod.mk.injEq] at h ⊢
          obtain ⟨he, hs1⟩ := h
          subst he
          subst hs1
          exact ⟨rfl, rfl⟩

lemma load_from_dict_err_engine (cfg : ConfigData) (s s1 : ConfigState) (e : PyError)
    (f : EngineField)
    (hd : _load_from_dict cfg s = .error (e, s1))
    (h : ∀ l, cfg.engine = some l → ∀ kv ∈ l, itemWrite kv f = none) :
    s1.engine_config f = s.engine_config f := by
  obtain ⟨fb, ex, en⟩ := cfg
  cases fb with
  | none =>
    cases ex with
    | none =>
      cases en with
      | none => simp_all [_load_from_dict]
      | some l =>
        cases hme : mergeError l with
        | none => simp_all [_load_from_dict, mergeEngine_char, hme]
        | some err =>
          simp only [_load_from_dict, mergeEngine_char, hme,
            Except.error.injEq, Prod.mk.injEq] at hd
          obtain ⟨-, hs1⟩ := hd
          subst hs1
          dsimp only
          rw [mergeWrites_none l f (h l rfl)]
          rfl
    | some ed =>
      cases hce : ExchangeConfig.ofDict ed with
      | ok ec =>
        cases en with
        | none => simp_all [_load_from_dict, hce]
        | some l =>
          cases hme : mergeError l with
          | none => simp_all [_load_from_dict, hce, mergeEngine_char, hme]
          | some err =>
            simp only [_load_from_dict, hce, mergeEngine_char, hme,
              Except.error.injEq, Prod.mk.injEq] at hd
            obtain ⟨-, hs1⟩ := hd
            subst hs1
            dsimp only
            rw [mergeWrites_none l f (h l rfl)]
            rfl
      | error e2 => simp_all [_load_from_dict, hce]
  | some fd =>
    cases hcf : FirebaseConfig.ofDict fd with
    | error e2 => simp_all [_load_from_dict, hcf]
    | ok fc =>
      cases ex with
      | none =>
        cases en with
        | none => simp_all [_load_from_dict, hcf]
        | some l =>
          cases hme : mergeError l with
          | none => simp_all [_load_from_dict, hcf, mergeEngine_char, hme]
          | some err =>
            simp only [_load_from_dict, hcf, mergeEngine_char, hme,
              Except.error.injEq, Prod.mk.injEq] at hd
            obtain ⟨-, hs1⟩ := hd
            subst hs1
            dsimp only
            rw [mergeWrites_none l f (h l rfl)]
            rfl
      | some ed =>
        cases hce : ExchangeConfig.ofDict ed with
        | ok ec =>
          cases en with
          | none => simp_all [_load_from_dict, hcf, hce]
          | some l =>
            cases hme : mergeError l with
            | none => simp_all [_load_from_dict, hcf, hce, mergeEngine_char, hme]
            | some err =>
              simp only [_load_from_dict, hcf, hce, mergeEngine_char, hme,
                Except.error.injEq, Prod.mk.injEq] at hd
              obtain ⟨-, hs1⟩ := hd
              subst hs1
              dsimp only
              rw [mergeWrites_none l f (h l rfl)]
              rfl
        | error e2 =>
          simp only [_load_from_dict, hcf, hce, Except.error.injEq, Prod.mk.injEq] at hd
          obtain ⟨-, hs1⟩ := hd
          subst hs1
          rfl

lemma dictFbOr_idem (cfg : ConfigData) (p : Option FirebaseConfig) :
    dictFbOr cfg (dictFbOr cfg p) = dictFbOr cfg p := by
  cases hfb : cfg.firebase with
  | none => simp [dictFbOr, hfb]
  | some fd => cases hc : FirebaseConfig.ofDict fd <;> simp [dictFbOr, hfb, hc]

lemma dictExOr_idem (cfg : ConfigData) (p : Option ExchangeConfig) :
    dictExOr cfg (dictExOr cfg p) = dictExOr cfg p := by
  cases hex : cfg.exchange with
  | none => simp [dictExOr, hex]
  | some ed => cases hc : ExchangeConfig.ofDict ed <;> simp [dictExOr, hex, hc]

lemma dictEnOr_idem (cfg : ConfigData) (e : EngineConfig) :
    dictEnOr cfg (dictEnOr cfg e) = dictEnOr cfg e := by
  cases hen : cfg.engine with
  | none => simp [dictEnOr, hen]
  | some l =>
    simp only [dictEnOr, hen]
    exact mergeState_fix l e

lemma fb_phase_idem (env : Env) (cfg : ConfigData) (p : Option FirebaseConfig) :
    fbEnvOr env (dictFbOr cfg (fbEnvOr env (dictFbOr cfg p))) =
      fbEnvOr env (dictFbOr cfg p) := by
  by_cases hc : firebaseEnvData env ≠ [] ∧ (firebaseEnvData env).length = firebase_vars.length
  · simp [fbEnvOr, hc]
  · simp [fbEnvOr, hc, dictFbOr_idem]

lemma ex_phase_idem (env : Env) (cfg : ConfigData) (p : Option ExchangeConfig) :
    exEnvOr env (dictExOr cfg (exEnvOr env (dictExOr cfg p))) =
      exEnvOr env (dictExOr cfg p) := by
  cases hk : envTruthy env "EXCHANGE_API_KEY" with
  | some k =>
    cases hs : envTruthy env "EXCHANGE_API_SECRET" with
    | some sec => simp [exEnvOr, hk, hs]
    | none => simp [exEnvOr, hk, hs, dictExOr_idem]
  | none => simp [exEnvOr, hk, dictExOr_idem]

lemma load_absent (env : Env) (s : ConfigState) :
    load_configuration .absent env s = afterFile env s := rfl

lemma load_configuration_ok_file (fs : FileState) (env : Env) (s s1 : ConfigState)
    (h : fileStep fs s = .ok s1) :
    load_configuration fs env s = afterFile env s1 := by
  unfold load_configuration loadBody
  rw [h]

lemma load_configuration_err_file (fs : FileState) (env : Env) (s : ConfigState)
    (e : PyError) (s1 : ConfigState) (h : fileStep fs s = .error (e, s1)) :
    load_configuration fs env s = (false, s1) := by
  unfold load_configuration loadBody
  rw [h]

lemma filterMap_length_countP {α β : Type} (g : α → Option β) (l : List α) :
    (l.filterMap g).length = l.countP (fun a => (g a).isSome) := by
  induction l with
  | nil => rfl
  | cons a t ih =>
    cases h : g a <;> simp [List.filterMap_cons, h, List.countP_cons, ih]

lemma firebaseEnvData_length (env : Env) :
    (firebaseEnvData env).length =
      firebase_vars.countP (fun av => (envTruthy env av.2).isSome) := by
  unfold firebaseEnvData
  rw [filterMap_length_countP]
  congr 1
  funext av
  cases h : envTruthy env av.2 <;> simp [h]

lemma firebaseEnvData_eq (env : Env) (p pk k ce ci : String)
    (h1 : envTruthy env "FIREBASE_PROJECT_ID" = some p)
    (h2 : envTruthy env "FIREBASE_PRIVATE_KEY_ID" = some pk)
    (h3 : envTruthy env "FIREBASE_PRIVATE_KEY" = some k)
    (h4 : envTruthy env "FIREBASE_CLIENT_EMAIL" = some ce)
    (h5 : envTruthy env "FIREBASE_CLIENT_ID" = some ci) :
    firebaseEnvData env =
      [("project_id", p), ("private_key_id", pk), ("private_key", k),
       ("client_email", ce), ("client_id", ci)] := by
  simp [firebaseEnvData, firebase_vars, h1, h2, h3, h4, h5]

/-! The claims. -/

/-- C1, counterexample.  The claim states that a missing config file makes
`load_configuration` fail (return `False`) for every environment.  In the
code the `except FileNotFoundError` handler is unreachable: `os.path.exists`
guards the whole file block, so an absent file skips it and resolution
proceeds; with an empty environment and defaults the load returns `True`. -/
theorem absent_file_returns_true :
    (load_configuration .absent emptyEnv initialState).1 = true := by decide

/-- C1, amended: if no file exists at `config_path`, `load_configuration`
skips the file phase and proceeds with environment-only resolution,
behaving exactly as if the file were present with empty object content;
it does not fail on account of the missing file. -/
theorem absent_file_env_only (env : Env) (s : ConfigState) :
    load_configuration .absent env s = load_configuration (.parsed emptyConfigData) env s :=
  rfl

/-- C2, counterexample.  The claim quantifies over every file content, but
with a malformed file the `JSONDecodeError` aborts the load before
`_load_from_env` runs: even with all five Firebase variables set, the
Firebase group stays absent on a fresh resolver. -/
theorem env_overlay_unreached_cex :
    (load_configuration .malformed envAllFirebase initialState).2.firebase_config = none :=
  rfl

/-- C2, amended: for every file state whose file phase completes without
raising — the file is absent, or its parsed dict is applied with no
constructor `TypeError` and no `setattr` error in the engine merge (e.g.
no `__class__` key) — and every environment in which all five Firebase
variables are set to non-empty strings, after `load_configuration` the
Firebase group equals the environment values exactly (with the dataclass
defaults for the remaining fields), replacing any file-derived group
wholesale.  When the file phase raises, the load aborts before the
environment overlay and the group stays as it was. -/
theorem env_overlay_wins (fs : FileState) (env : Env) (s s1 : ConfigState)
    (p pk k ce ci : String)
    (hfile : fileStep fs s = .ok s1)
    (h1 : envTruthy env "FIREBASE_PROJECT_ID" = some p)
    (h2 : envTruthy env "FIREBASE_PRIVATE_KEY_ID" = some pk)
    (h3 : envTruthy env "FIREBASE_PRIVATE_KEY" = some k)
    (h4 : envTruthy env "FIREBASE_CLIENT_EMAIL" = some ce)
    (h5 : envTruthy env "FIREBASE_CLIENT_ID" = some ci) :
    (load_configuration fs env s).2.firebase_config =
      some { project_id := .str p, private_key_id := .str pk, private_key := .str k,
             client_email := .str ce, client_id := .str ci } := by
  rw [load_configuration_ok_file fs env s s1 hfile, afterFile_firebase]
  unfold fbEnvOr
  rw [firebaseEnvData_eq env p pk k ce ci h1 h2 h3 h4 h5]
  rfl

/-- C2, witness: a file-derived Firebase group is replaced wholesale by the
environment-derived one. -/
theorem env_overlay_wins_w :
    (load_configuration (.parsed ⟨some sampleFirebaseDict, none, none⟩) envAllFirebase
        initialState).2.firebase_config =
      some { project_id := .str "env-pid", private_key_id := .str "env-pkid",
             private_key := .str "env-pk", client_email := .str "env-email",
             client_id := .str "env-cid" } :=
  env_overlay_wins (.parsed ⟨some sampleFirebaseDict, none, none⟩) envAllFirebase
    initialState { initialState with firebase_config := some sampleFirebase }
    "env-pid" "env-pkid" "env-pk" "env-email" "env-cid" rfl rfl rfl rfl rfl rfl

/-- C3: when exactly four of the five Firebase environment variables are
set to non-empty strings, the environment overlay does not construct a
Firebase group and leaves the previous one (file-derived or absent)
unchanged; no partially-populated `FirebaseConfig` is produced.
(`_load_from_env` is a total function in this model: the skipped branch
raises nothing.) -/
theorem partial_firebase_env_skipped (env : Env) (s : ConfigState)
    (h : firebase_vars.countP (fun av => (envTruthy env av.2).isSome) = 4) :
    (_load_from_env env s).firebase_config = s.firebase_config := by
  rw [load_from_env_firebase]
  unfold fbEnvOr
  have hlen : (firebaseEnvData env).length = 4 := by rw [firebaseEnvData_length, h]
  have hneg : ¬(firebaseEnvData env ≠ [] ∧
      (firebaseEnvData env).length = firebase_vars.length) := by
    intro hc
    rw [hlen] at hc
    exact absurd hc.2 (by decide)
  rw [if_neg hneg]

/-- C3, witness: four variables set, a file-derived Firebase group in
place, and the overlay leaves it untouched. -/
theorem partial_firebase_env_skipped_w :
    firebase_vars.countP (fun av => (envTruthy envFourFirebase av.2).isSome) = 4 ∧
    (_load_from_env envFourFirebase stateWithFileFirebase).firebase_config =
      stateWithFileFirebase.firebase_config :=
  ⟨by decide, partial_firebase_env_skipped envFourFirebase stateWithFileFirebase (by decide)⟩

/-- C4: `load_configuration` never propagates an exception: every raise
inside the `try` body (`loadBody`) is converted by the `except` handlers
into a `False` return (with whatever state had been mutated so far).
`load_configuration` itself is a total function of the model. -/
theorem load_catches_all (fs : FileState) (env : Env) (s : ConfigState)
    (e : PyError) (s1 : ConfigState)
    (h : loadBody fs env s = .error (e, s1)) :
    load_configuration fs env s = (false, s1) := by
  unfold load_configuration
  rw [h]

/-- C4, witness: the `JSONDecodeError` raise on a malformed file is caught
and becomes a `False` return. -/
theorem load_catches_all_w :
    load_configuration .malformed emptyEnv initialState = (false, initialState) :=
  load_catches_all .malformed emptyEnv initialState .jsonDecodeError initialState rfl

/-- C5, counterexample.  The claim states that unknown engine keys are
silently ignored without error; but Python's `hasattr` is also true for
`__class__`, and `setattr(engine_config, "__class__", "x")` raises
`TypeError`, which `load_configuration` catches and turns into a `False`
return — the key is neither assigned nor silently ignored. -/
theorem engine_class_key_fails_cex :
    load_configuration
        (.parsed ⟨none, none, some [("__class__", EngValue.scalar (.str "x"))]⟩)
        emptyEnv initialState = (false, initialState) := by
  decide

/-- C5, amended: a key naming an `EngineConfig` dataclass field is
assigned; a key that `hasattr` does not find, or that only shadows a class
attribute with an inert instance attribute (e.g. `__init__`), raises
nothing and leaves every dataclass field unchanged; but `__class__` (a
JSON value is never a class), `__weakref__` (not writable), and
`__dict__` with a non-dict value raise, failing the load.  The spec
scenario still holds: a file setting only `engine.mutation_rate = 0.3`,
with no environment variable set, yields `mutation_rate = 0.3` and every
other field at its default (`setattrEngine` changes exactly one field). -/
theorem engine_merge_field_keys (k : String) (v : EngValue) (e : EngineConfig)
    (h1 : EngineField.ofName k = none)
    (h2 : k ≠ "__dict__") (h3 : k ≠ "__class__") (h4 : k ≠ "__weakref__") :
    applyEngineItem e (k, v) = .ok e ∧
    applyEngineItem e ("__class__", v) = .error .exception ∧
    applyEngineItem e ("__weakref__", v) = .error .exception ∧
    applyEngineItem e ("__dict__", EngValue.scalar (.str "x")) = .error .exception ∧
    load_configuration
        (.parsed ⟨none, none, some [("mutation_rate", EngValue.scalar (.num (mkRat 3 10)))]⟩)
        emptyEnv initialState =
      (true,
        { initialState with
            engine_config :=
              setattrEngine EngineConfig.init .mutation_rate
                (EngValue.scalar (.num (mkRat 3 10))),
            secrets_loaded := true }) := by
  refine ⟨?_, rfl, rfl, rfl, by decide⟩
  have hred : applyEngineItem e (k, v) =
      (match EngineField.ofName k with
       | some f => Except.ok (setattrEngine e f v)
       | none =>
         if k = "__dict__" then
           match v with
           | .dict entries => Except.ok (rebindDict entries)
           | .scalar _ => Except.error .exception
         else if k = "__class__" then Except.error .exception
         else if k = "__weakref__" then Except.error .exception
         else Except.ok e) := rfl
  rw [hred, h1]
  simp [h2, h3, h4]

/-- C5, witness: a concrete unknown key is a silent no-op, the three
raising dunder keys raise, and the concrete scenario holds. -/
theorem engine_merge_field_keys_w :
    applyEngineItem EngineConfig.init ("unknown_key", EngValue.scalar (.num 1)) =
      .ok EngineConfig.init ∧
    applyEngineItem EngineConfig.init ("__class__", EngValue.scalar (.num 1)) =
      .error .exception ∧
    applyEngineItem EngineConfig.init ("__weakref__", EngValue.scalar (.num 1)) =
      .error .exception ∧
    applyEngineItem EngineConfig.init ("__dict__", EngValue.scalar (.str "x")) =
      .error .exception ∧
    load_configuration
        (.parsed ⟨none, none, some [("mutation_rate", EngValue.scalar (.num (mkRat 3 10)))]⟩)
        emptyEnv initialState =
      (true,
        { initialState with
            engine_config :=
              setattrEngine EngineConfig.init .mutation_rate
                (EngValue.scalar (.num (mkRat 3 10))),
            secrets_loaded := true }) :=
  engine_merge_field_keys "unknown_key" (EngValue.scalar (.num 1)) EngineConfig.init
    rfl (by decide) (by decide) (by decide)

/-- C6: a malformed config file makes `load_configuration` return `False`
with the resolver state bit-for-bit unchanged (the raise happens in
`json.load`, before any mutation); in particular a fresh resolver keeps
its default-constructed `EngineConfig`. -/
theorem malformed_file_frame (env : Env) (s : ConfigState) :
    load_configuration .malformed env s = (false, s) ∧
    (load_configuration .malformed env initialState).2.engine_config = EngineConfig.init :=
  ⟨rfl, rfl⟩

/-- C7: loading twice with the same file state and environment yields
field-for-field equal Firebase, Exchange and Engine groups (idempotence
under unchanged inputs). -/
theorem load_idempotent_groups (fs : FileState) (env : Env) (s : ConfigState) :
    (load_configuration fs env (load_configuration fs env s).2).2.firebase_config =
        (load_configuration fs env s).2.firebase_config ∧
    (load_configuration fs env (load_configuration fs env s).2).2.exchange_config =
        (load_configuration fs env s).2.exchange_config ∧
    (load_configuration fs env (load_configuration fs env s).2).2.engine_config =
        (load_configuration fs env s).2.engine_config := by
  cases fs with
  | malformed => exact ⟨rfl, rfl, rfl⟩
  | absent =>
    refine ⟨?_, ?_, ?_⟩
    · simp only [load_absent]
      rw [afterFile_firebase, afterFile_firebase, fbEnvOr_idem]
    · simp only [load_absent]
      rw [afterFile_exchange, afterFile_exchange, exEnvOr_idem]
    · simp only [load_absent]
      rw [afterFile_engine, afterFile_engine]
  | parsed d =>
    cases hd : _load_from_dict d s with
    | error es =>
      obtain ⟨e, s1⟩ := es
      have hst := load_from_dict_err_stable d s s1 e hd
      have hl1 : load_configuration (.parsed d) env s = (false, s1) :=
        load_configuration_err_file _ env _ _ _ hd
      have hl2 : load_configuration (.parsed d) env s1 = (false, s1) :=
        load_configuration_err_file _ env _ _ _ hst
      simp [hl1, hl2]
    | ok s1 =>
      obtain ⟨hok, hs1⟩ := load_from_dict_ok d s s1 hd
      have hl1 : load_configuration (.parsed d) env s = afterFile env s1 :=
        load_configuration_ok_file _ env _ _ hd
      have h2 := load_from_dict_of_dictOk d (afterFile env s1).2 hok
      have hl2 : load_configuration (.parsed d) env (afterFile env s1).2 =
          afterFile env
            { (afterFile env s1).2 with
              firebase_config := dictFbOr d ((afterFile env s1).2.firebase_config),
              exchange_config := dictExOr d ((afterFile env s1).2.exchange_config),
              engine_config := dictEnOr d ((afterFile env s1).2.engine_config) } :=
        load_configuration_ok_file _ env _ _ h2
      subst hs1
      refine ⟨?_, ?_, ?_⟩
      · rw [hl1, hl2]
        simp only [afterFile_firebase]
        exact fb_phase_idem env d s.firebase_config
      · rw [hl1, hl2]
        simp only [afterFile_exchange]
        exact ex_phase_idem env d s.exchange_config
      · rw [hl1, hl2]
        simp only [afterFile_engine]
        exact dictEnOr_idem d s.engine_config

/-- C8: file absent, `EXCHANGE_API_KEY=abc`, `EXCHANGE_API_SECRET=xyz`, no
other variable set: after `load_configuration` the Exchange group exists
with `name="binance"`, `api_key="abc"`, `api_secret="xyz"` and
`paper_trading=true` (and the default rate limit). -/
theorem exchange_env_scenario :
    (load_configuration .absent envC8 initialState).2.exchange_config =
      some { name := .str "binance", api_key := .str "abc", api_secret := .str "xyz",
             paper_trading := .bool true, rate_limit := .num 1000 } := by
  decide

/-- C9, counterexample.  The claim states that all config objects are
created fresh on each load and that no value is carried over from a
previous load; but `engine_config` is created once in `__init__` and only
mutated in place, so two resolver states given identical inputs (absent
file, empty environment) resolve to different engine groups: a fresh one
keeps `mutation_rate = 0.15`, one previously mutated keeps `0.3`. -/
theorem stateful_engine_cex :
    (load_configuration .absent emptyEnv initialState).2.engine_config
        EngineField.mutation_rate = .scalar (.num (mkRat 15 100)) ∧
    (load_configuration .absent emptyEnv mutatedEngineState).2.engine_config
        EngineField.mutation_rate = .scalar (.num (mkRat 3 10)) := by
  decide

/-- C9, amended: `EngineConfig` is not recreated by `load_configuration`;
it is the `__init__`-created object mutated in place, so values set by an
earlier load are carried over.  An engine field value persists across a
load whenever the current file does not write it: absent file, malformed
file, no `engine` section, or an `engine` section none of whose keys
names the field or assigns `__dict__`.  Assigning a dict to `__dict__`
rebinds the instance dict and resets every field it does not list to its
class default — the second conjunct shows `{"engine": {"__dict__": {}}}`
resetting a previously mutated `mutation_rate` to its default.  Firebase
and Exchange groups are replaced wholesale only when their file section or
environment activation applies. -/
theorem engine_field_persists (fs : FileState) (env : Env) (s : ConfigState)
    (f : EngineField)
    (h : ∀ d l, fs = .parsed d → d.engine = some l →
         ∀ kv ∈ l, EngineField.ofName kv.1 ≠ some f ∧ kv.1 ≠ "__dict__") :
    (load_configuration fs env s).2.engine_config f = s.engine_config f ∧
    (load_configuration (.parsed ⟨none, none, some [("__dict__", EngValue.dict [])]⟩)
        emptyEnv mutatedEngineState).2.engine_config EngineField.mutation_rate =
      EngineConfig.init EngineField.mutation_rate := by
  constructor
  · cases fs with
    | malformed => rfl
    | absent => rw [load_absent, afterFile_engine]
    | parsed d =>
      have hW : ∀ l, d.engine = some l → ∀ kv ∈ l, itemWrite kv f = none := by
        intro l hl kv hkv
        obtain ⟨ha, hb⟩ := h d l rfl hl kv hkv
        exact itemWrite_none_of kv f ha hb
      cases hd : _load_from_dict d s with
      | error es =>
        obtain ⟨e, s1⟩ := es
        rw [load_configuration_err_file (.parsed d) env s e s1 hd]
        exact load_from_dict_err_engine d s s1 e f hd hW
      | ok s1 =>
        obtain ⟨hok, hs1⟩ := load_from_dict_ok d s s1 hd
        rw [load_configuration_ok_file (.parsed d) env s s1 hd, afterFile_engine, hs1]
        show dictEnOr d s.engine_config f = s.engine_config f
        cases hen : d.engine with
        | none => simp [dictEnOr, hen]
        | some l =>
          simp only [dictEnOr, hen]
          rw [mergeWrites_none l f (hW l hen)]
          rfl
  · decide

/-- C9, witness: a load whose file sets only `max_strategies` keeps the
previously mutated `mutation_rate` value (and the `__dict__` reset
conjunct holds). -/
theorem engine_field_persists_w :
    (load_configuration
        (.parsed ⟨none, none, some [("max_strategies", EngValue.scalar (.num 50))]⟩)
        emptyEnv mutatedEngineState).2.engine_config EngineField.mutation_rate =
      mutatedEngineState.engine_config EngineField.mutation_rate ∧
    (load_configuration (.parsed ⟨none, none, some [("__dict__", EngValue.dict [])]⟩)
        emptyEnv mutatedEngineState).2.engine_config EngineField.mutation_rate =
      EngineConfig.init EngineField.mutation_rate :=
  engine_field_persists _ emptyEnv mutatedEngineState EngineField.mutation_rate (by
    intro d l hd hl
    injection hd with hd2
    subst hd2
    injection hl with hl2
    subst hl2
    intro kv hkv
    simp only [List.mem_singleton] at hkv
    subst hkv
    exact ⟨by decide, by decide⟩)

/-- C10: no rollback on a failed load.  If the file's `firebase` section
constructs successfully and the subsequent `exchange` section raises
(e.g. an unexpected field name), `load_configuration` returns `False`
while the resolver keeps the newly applied file-derived Firebase group. -/
theorem no_rollback_on_exchange_error (fd ed : List (String × JValue))
    (en : Option (List (String × EngValue))) (env : Env) (s : ConfigState)
    (c : FirebaseConfig) (e : PyError)
    (hfb : FirebaseConfig.ofDict fd = .ok c)
    (hex : ExchangeConfig.ofDict ed = .error e) :
    load_configuration (.parsed ⟨some fd, some ed, en⟩) env s =
      (false, { s with firebase_config := some c }) := by
  have hstep : fileStep (.parsed ⟨some fd, some ed, en⟩) s =
      .error (e, { s with firebase_config := some c }) := by
    show _load_from_dict ⟨some fd, some ed, en⟩ s = _
    unfold _load_from_dict
    simp [hfb, hex]
  exact load_configuration_err_file _ env _ _ _ hstep

/-- C10, witness: a concrete exchange section with an unexpected
`bogus_field` key aborts the load after the Firebase group was applied. -/
theorem no_rollback_on_exchange_error_w :
    load_configuration (.parsed ⟨some sampleFirebaseDict, some badExchangeDict, none⟩)
        emptyEnv initialState =
      (false, { initialState with firebase_config := some sampleFirebase }) :=
  no_rollback_on_exchange_error sampleFirebaseDict badExchangeDict none emptyEnv
    initialState sampleFirebase .exception rfl rfl
